import Mathlib

/-!
Shallow embedding of the ShikenMatrix Reporter (src/services/reporter.rs,
src/services/config.rs, src/main.rs) and proofs about its change-detection,
backoff, artwork-upload and configuration logic.

Modelling conventions:
* Rust `f64` values are modelled as rationals (`ℚ`); the only operations the
  embedded code performs on them are multiplication by a constant and the
  saturating `as i64` cast, both exact on rationals.
* Rust's `DefaultHasher` (`compute_hash` in reporter.rs) is modelled as an
  arbitrary function from the exact sequence of quantized field values fed to
  the hasher (the "hash input") to a `Nat`; every theorem quantifies over it.
  The reporter's logic depends on the hasher only through this function.
* The unbounded mpsc channel is modelled as the list `Reporter.queue`;
  enqueueing appends to the right, the connection loop drains from the left.
* `HashMap<String, String>` is modelled as an association list with
  `lookupUrl` / `insertUrl` mirroring `get` / `insert`.
-/

namespace ShikenMatrix

/-- Finite `f64` values, modelled exactly as rationals. -/
abbrev F64 := ℚ

/-- Smallest `i64` value, `-(2 ^ 63)`. -/
def i64_min : ℤ := -9223372036854775808

/-- Largest `i64` value, `2 ^ 63 - 1`. -/
def i64_max : ℤ := 9223372036854775807

/-- Rust's `as i64` cast on a finite `f64`: truncation toward zero,
saturating at the `i64` bounds. `Int.tdiv` is truncating division. -/
def f64_as_i64 (q : F64) : ℤ :=
  let t := Int.tdiv q.num (q.den : ℤ)
  if t < i64_min then i64_min else if i64_max < t then i64_max else t

/-- Rust's `as u32` cast on an `i32` value (two's-complement wrap). -/
def u32_of_i32 (n : ℤ) : ℕ :=
  (n % 2 ^ 32).toNat

/-- `platform::WindowInfo` (src/platform/mod.rs:32). -/
structure WindowInfo where
  title : String
  icon_data : Option (List ℕ)
  process_name : String
  pid : ℤ
  app_id : Option String
  deriving DecidableEq, Repr

/-- `platform::macos::MediaMetadata` (src/platform/macos/media.rs:22). -/
structure MediaMetadata where
  bundle_identifier : Option String
  title : Option String
  artist : Option String
  album : Option String
  duration : F64
  artwork_data : Option String
  artwork_mime_type : Option String
  content_item_identifier : Option String
  deriving DecidableEq, Repr

/-- `platform::macos::PlaybackState` (src/platform/macos/media.rs:11). -/
structure PlaybackState where
  playing : Bool
  playback_rate : F64
  elapsed_time : F64
  deriving DecidableEq, Repr

/-- `WindowInfoData` (reporter.rs:69): payload of a `window_info` message. -/
structure WindowInfoData where
  title : String
  process_name : String
  icon_url : Option String
  app_id : Option String
  pid : ℕ
  deriving DecidableEq, Repr

/-- `MediaMetadataData` (reporter.rs:78): metadata payload of a
`media_playback` message. -/
structure MediaMetadataData where
  bundle_identifier : Option String
  title : Option String
  artist : Option String
  album : Option String
  duration : F64
  artwork_url : Option String
  content_item_identifier : Option String
  deriving DecidableEq, Repr

/-- `PlaybackStateData` (reporter.rs:101): playback payload of a
`media_playback` message. -/
structure PlaybackStateData where
  playing : Bool
  playback_rate : F64
  elapsed_time : F64
  deriving DecidableEq, Repr

/-- The exact value sequence written by `impl Hash for MediaMetadataData`
(reporter.rs:88): string fields unchanged, `duration` quantized to
milliseconds via `(duration * 1000.0) as i64`. -/
structure MediaMetadataHashInput where
  bundle_identifier : Option String
  title : Option String
  artist : Option String
  album : Option String
  duration_ms : ℤ
  artwork_url : Option String
  content_item_identifier : Option String
  deriving DecidableEq, Repr

/-- The exact value sequence written by `impl Hash for PlaybackStateData`
(reporter.rs:107): `playback_rate` quantized to hundredths via
`(playback_rate * 100.0) as i64`, `elapsed_time` to whole seconds via
`elapsed_time as i64`. -/
structure PlaybackStateHashInput where
  playing : Bool
  rate_centi : ℤ
  elapsed_s : ℤ
  deriving DecidableEq, Repr

/-- Quantization performed by `impl Hash for MediaMetadataData`. -/
def media_metadata_hash_input (m : MediaMetadataData) : MediaMetadataHashInput :=
  { bundle_identifier := m.bundle_identifier
  , title := m.title
  , artist := m.artist
  , album := m.album
  , duration_ms := f64_as_i64 (m.duration * 1000)
  , artwork_url := m.artwork_url
  , content_item_identifier := m.content_item_identifier }

/-- Quantization performed by `impl Hash for PlaybackStateData`. -/
def playback_state_hash_input (s : PlaybackStateData) : PlaybackStateHashInput :=
  { playing := s.playing
  , rate_centi := f64_as_i64 (s.playback_rate * 100)
  , elapsed_s := f64_as_i64 s.elapsed_time }

/-- `compute_hash(&(&metadata_data, &state_data))` (reporter.rs:660) hashes
the pair of quantized inputs. -/
abbrev MediaHashInput := MediaMetadataHashInput × PlaybackStateHashInput

/-- Hash input of a media fingerprint. -/
def media_hash_input (m : MediaMetadataData) (s : PlaybackStateData) : MediaHashInput :=
  (media_metadata_hash_input m, playback_state_hash_input s)

/-- `WindowInfoMessage` (reporter.rs:46). -/
structure WindowInfoMessage where
  msg_type : String
  data : WindowInfoData
  deriving DecidableEq, Repr

/-- `MediaPlaybackMessage` (reporter.rs:53). -/
structure MediaPlaybackMessage where
  msg_type : String
  metadata : MediaMetadataData
  playback_state : PlaybackStateData
  deriving DecidableEq, Repr

/-- `UploadArtworkMetaMessage` (reporter.rs:61). -/
structure UploadArtworkMetaMessage where
  msg_type : String
  content_item_identifier : String
  mime_type : String
  deriving DecidableEq, Repr

/-- `ReporterMessage` (reporter.rs:29): items of the outbound queue. -/
inductive ReporterMessage where
  | windowInfo (m : WindowInfoMessage)
  | mediaPlayback (m : MediaPlaybackMessage)
  | uploadArtwork (content_item_identifier : String) (artwork_data : List ℕ)
      (mime_type : String)
  deriving DecidableEq, Repr

/-- `ServerMessage` (reporter.rs:36): parsed inbound text frame. -/
structure ServerMessage where
  msg_type : String
  content_item_identifier : Option String
  artwork_url : Option String
  deriving DecidableEq, Repr

/-- `HashMap::get` on the artwork-URL map, as an association list lookup. -/
def lookupUrl : List (String × String) → String → Option String
  | [], _ => none
  | p :: rest, id => if p.1 == id then some p.2 else lookupUrl rest id

/-- `HashMap::insert` on the artwork-URL map: replace the binding if the key
is present, append it otherwise. -/
def insertUrl : List (String × String) → String → String → List (String × String)
  | [], id, url => [(id, url)]
  | p :: rest, id, url =>
      if p.1 == id then (id, url) :: rest else p :: insertUrl rest id url

/-- The mutable state of one `Reporter` (reporter.rs:122) relevant to the
outbound protocol: the two fingerprint slots (`AtomicU64`), the artwork-URL
cache and the outbound queue (the unbounded mpsc channel's contents). -/
structure Reporter where
  last_window_hash : ℕ
  last_media_hash : ℕ
  artwork_urls : List (String × String)
  queue : List ReporterMessage
  deriving DecidableEq, Repr

/-- `Reporter::new` (reporter.rs:136): both fingerprint slots start at 0,
the cache and the queue start empty. -/
def Reporter.new : Reporter :=
  { last_window_hash := 0
  , last_media_hash := 0
  , artwork_urls := []
  , queue := [] }

/-- The `WindowInfoData` built at the top of `Reporter::send_window_info`
(reporter.rs:612): `icon_url` is always `None`, `pid` is cast `as u32`. -/
def window_info_data (info : WindowInfo) : WindowInfoData :=
  { title := info.title
  , process_name := info.process_name
  , icon_url := none
  , app_id := info.app_id
  , pid := u32_of_i32 info.pid }

/-- `Reporter::send_window_info` (reporter.rs:611): compute the fingerprint,
swap it into `last_window_hash` unconditionally, and enqueue a
`window_info` message exactly when it differs from the previous value. -/
def send_window_info (hash : WindowInfoData → ℕ) (r : Reporter)
    (info : WindowInfo) : Reporter :=
  let data := window_info_data info
  let new_hash := hash data
  let old_hash := r.last_window_hash
  if new_hash ≠ old_hash then
    { r with
      last_window_hash := new_hash
      queue := r.queue ++ [ReporterMessage.windowInfo
        { msg_type := "window_info", data := data }] }
  else
    { r with last_window_hash := new_hash }

/-- The `MediaMetadataData` built by `Reporter::send_media_playback`
(reporter.rs:641): `artwork_url` is looked up in the artwork-URL cache under
the snapshot's content id. -/
def media_metadata_data (urls : List (String × String))
    (metadata : MediaMetadata) : MediaMetadataData :=
  { bundle_identifier := metadata.bundle_identifier
  , title := metadata.title
  , artist := metadata.artist
  , album := metadata.album
  , duration := metadata.duration
  , artwork_url := metadata.content_item_identifier.bind (lookupUrl urls)
  , content_item_identifier := metadata.content_item_identifier }

/-- The `PlaybackStateData` built by `Reporter::send_media_playback`
(reporter.rs:654). -/
def playback_state_data (state : PlaybackState) : PlaybackStateData :=
  { playing := state.playing
  , playback_rate := state.playback_rate
  , elapsed_time := state.elapsed_time }

/-- `Reporter::send_media_playback` (reporter.rs:640): compute the
fingerprint of the quantized (metadata, playback-state) pair, swap it into
`last_media_hash` unconditionally, and enqueue a `media_playback` message
exactly when it differs from the previous value. -/
def send_media_playback (hash : MediaHashInput → ℕ) (r : Reporter)
    (metadata : MediaMetadata) (state : PlaybackState) : Reporter :=
  let metadata_data := media_metadata_data r.artwork_urls metadata
  let state_data := playback_state_data state
  let new_hash := hash (media_hash_input metadata_data state_data)
  if new_hash ≠ r.last_media_hash then
    { r with
      last_media_hash := new_hash
      queue := r.queue ++ [ReporterMessage.mediaPlayback
        { msg_type := "media_playback"
        , metadata := metadata_data
        , playback_state := state_data }] }
  else
    { r with last_media_hash := new_hash }

/-- `Reporter::upload_artwork` (reporter.rs:673): unconditionally enqueue an
`UploadArtwork` message. -/
def upload_artwork (r : Reporter) (content_item_identifier : String)
    (artwork_data : List ℕ) (mime_type : String) : Reporter :=
  { r with queue := r.queue ++
      [ReporterMessage.uploadArtwork content_item_identifier artwork_data
        mime_type] }

/-- Inbound text-frame handling in `Reporter::run_reporter`
(reporter.rs:556): an `artwork_uploaded` message carrying both a content id
and a URL inserts the pair into the artwork-URL cache; everything else is
ignored. -/
def handle_server_message (r : Reporter) (m : ServerMessage) : Reporter :=
  if m.msg_type == "artwork_uploaded" then
    match m.content_item_identifier, m.artwork_url with
    | some content_id, some url =>
        { r with artwork_urls := insertUrl r.artwork_urls content_id url }
    | _, _ => r
  else r

/-- The artwork-upload decision of the monitoring loop in
`Reporter::start_window_monitoring` (reporter.rs:399): when the metadata
carries artwork bytes, a MIME type and a content id, the cache is consulted
and the upload is enqueued only if the content id is absent. `decode` models
the base64 decode of the artwork payload. -/
def monitoring_artwork_step (decode : String → Option (List ℕ))
    (r : Reporter) (metadata : MediaMetadata) : Reporter :=
  match metadata.artwork_data, metadata.artwork_mime_type,
      metadata.content_item_identifier with
  | some artwork_data, some mime_type, some content_id =>
      let needs_upload := (lookupUrl r.artwork_urls content_id).isNone
      if needs_upload then
        match decode artwork_data with
        | some artwork_bytes => upload_artwork r content_id artwork_bytes mime_type
        | none => r
      else r
  | _, _, _ => r

/-- The artwork-upload section of the polling tick in `main`
(src/main.rs:67): when the metadata carries artwork bytes, a MIME type and a
content id, the upload is enqueued unconditionally — the artwork-URL cache
is never consulted. -/
def main_artwork_step (decode : String → Option (List ℕ))
    (r : Reporter) (metadata : MediaMetadata) : Reporter :=
  match metadata.artwork_data, metadata.artwork_mime_type,
      metadata.content_item_identifier with
  | some artwork_data, some mime_type, some content_id =>
      match decode artwork_data with
      | some artwork_bytes => upload_artwork r content_id artwork_bytes mime_type
      | none => r
  | _, _, _ => r

/-! ### Connection loop (`Reporter::run_reporter`, reporter.rs:455) -/

/-- `MAX_RECONNECT_ATTEMPTS` (reporter.rs:462). -/
def MAX_RECONNECT_ATTEMPTS : ℕ := 5

/-- `RECONNECT_INTERVAL` in milliseconds (reporter.rs:463). -/
def RECONNECT_INTERVAL : ℕ := 3000

/-- The 30-second cooldown slept when the attempt ceiling is reached
(reporter.rs:594), in milliseconds. -/
def LONG_COOLDOWN : ℕ := 30000

/-- The handshake timeout in seconds (reporter.rs:502). -/
def HANDSHAKE_TIMEOUT_SECS : ℕ := 15

/-- Backoff arithmetic at the bottom of `run_reporter` (reporter.rs:591):
increment the attempt counter; at or above the ceiling sleep the long
cooldown and reset the counter, otherwise sleep the short interval.
Returns the new counter value and the sleep duration in milliseconds. -/
def backoff_step (reconnect_attempts : ℕ) : ℕ × ℕ :=
  let a := reconnect_attempts + 1
  if MAX_RECONNECT_ATTEMPTS ≤ a then (0, LONG_COOLDOWN)
  else (a, RECONNECT_INTERVAL)

/-- Position of the connection loop: about to attempt a handshake, or inside
the `Connected` select loop. -/
inductive ConnPhase where
  | connecting
  | connected
  deriving DecidableEq, Repr

/-- State of the connection loop visible to the claims: its phase, the
`reconnect_attempts` counter and the shared `is_connected` flag. -/
structure ConnState where
  phase : ConnPhase
  reconnect_attempts : ℕ
  is_connected : Bool
  deriving DecidableEq, Repr

/-- Events driving the connection loop: the three handshake outcomes
(reporter.rs:506-589), the three exits from the select loop (send error,
server-initiated close, read error), and a non-breaking inbound frame. -/
inductive ConnEvent where
  | handshake_ok
  | handshake_failed
  | handshake_timeout
  | send_error
  | server_close
  | read_error
  | server_frame
  deriving DecidableEq, Repr

/-- Initial state of `run_reporter`: `reconnect_attempts = 0`
(reporter.rs:461), `is_connected` created `false` (reporter.rs:139), first
iteration heads into a connection attempt. -/
def conn_init : ConnState :=
  { phase := .connecting, reconnect_attempts := 0, is_connected := false }

/-- One step of the connection loop. Returns the successor state and the
sleep performed, if any (milliseconds). A successful handshake stores `true`
into the flag and zeroes the counter (reporter.rs:509-510); every handshake
failure and every exit from the select loop stores `false` into the flag
(reporter.rs:579, 583, 587) and runs the backoff arithmetic before the next
attempt. Events that cannot occur in the current phase leave the state
unchanged. -/
def conn_step (s : ConnState) (e : ConnEvent) : ConnState × Option ℕ :=
  match s.phase, e with
  | .connecting, .handshake_ok =>
      ({ phase := .connected, reconnect_attempts := 0, is_connected := true },
       none)
  | .connecting, .handshake_failed | .connecting, .handshake_timeout =>
      ({ phase := .connecting
       , reconnect_attempts := (backoff_step s.reconnect_attempts).1
       , is_connected := false },
       some (backoff_step s.reconnect_attempts).2)
  | .connected, .send_error | .connected, .server_close
  | .connected, .read_error =>
      ({ phase := .connecting
       , reconnect_attempts := (backoff_step s.reconnect_attempts).1
       , is_connected := false },
       some (backoff_step s.reconnect_attempts).2)
  | .connected, .server_frame => (s, none)
  | _, _ => (s, none)

/-- Run the connection loop over a list of events, collecting the sleeps
performed in order. -/
def conn_run (s : ConnState) : List ConnEvent → ConnState × List ℕ
  | [] => (s, [])
  | e :: es =>
      let (s', w) := conn_step s e
      let (s'', ws) := conn_run s' es
      (s'', w.toList ++ ws)

/-! ### Wire frames sent by the select loop (reporter.rs:514) -/

/-- One WebSocket frame written by the select loop: a serialized text frame
or a binary frame. -/
inductive Frame where
  | textWindow (m : WindowInfoMessage)
  | textMedia (m : MediaPlaybackMessage)
  | textArtworkMeta (m : UploadArtworkMetaMessage)
  | binary (data : List ℕ)
  deriving DecidableEq, Repr

/-- Frames written for one dequeued queue item (reporter.rs:517-549),
assuming the sends succeed: window and media messages produce one text
frame; an `UploadArtwork` item produces the `upload_artwork_meta` text frame
immediately followed by the binary artwork frame. -/
def frames_for_message : ReporterMessage → List Frame
  | .windowInfo m => [Frame.textWindow m]
  | .mediaPlayback m => [Frame.textMedia m]
  | .uploadArtwork content_item_identifier artwork_data mime_type =>
      [Frame.textArtworkMeta
        { msg_type := "upload_artwork_meta"
        , content_item_identifier := content_item_identifier
        , mime_type := mime_type }
      , Frame.binary artwork_data]

/-- Frames written while draining a queue: each dequeued item is processed
completely before the next one is taken from the channel. -/
def drain_frames (q : List ReporterMessage) : List Frame :=
  q.flatMap frames_for_message

/-! ### Endpoint rewriting (reporter.rs:473) -/

/-- Whether `pat` occurs as a contiguous run inside `s`. -/
def containsSeq (pat : List Char) : List Char → Bool
  | [] => pat.isEmpty
  | c :: rest => pat.isPrefixOf (c :: rest) || containsSeq pat rest

/-- Rust `str::replace` on character lists: scan left to right, replacing
non-overlapping occurrences of `pat` by `rep`. The fuel argument (set to the
list length by `str_replace`) only exists to make the recursion structural;
each step consumes at least one character. -/
def replaceAllAux (pat rep : List Char) : ℕ → List Char → List Char
  | _, [] => []
  | 0, s => s
  | fuel + 1, c :: rest =>
      if pat ≠ [] ∧ pat.isPrefixOf (c :: rest) then
        rep ++ replaceAllAux pat rep fuel (List.drop (pat.length - 1) rest)
      else
        c :: replaceAllAux pat rep fuel rest

/-- Rust `str::replace` on strings. -/
def str_replace (s pat rep : String) : String :=
  ⟨replaceAllAux pat.data rep.data s.data.length s.data⟩

/-- The scheme rewrite applied to the configured endpoint before each
handshake attempt (reporter.rs:473):
`ws_url.replace("http://", "ws://").replace("https://", "wss://")`. -/
def rewrite_ws_url (ws_url : String) : String :=
  str_replace (str_replace ws_url "http://" "ws://") "https://" "wss://"

/-- `ReporterConfig` (reporter.rs:20) as used by the connection loop and the
config store. (The serde-defaulted `enable_media_reporting` field is read by
no code path modelled here and is omitted.) -/
structure ReporterConfig where
  enabled : Bool
  ws_url : String
  token : String
  deriving DecidableEq, Repr

/-- The handshake attempt assembled by the connection loop when the
rewritten endpoint parses as a URL (reporter.rs:473-504): the rewritten
endpoint, the query pairs appended to it (`token=<cfg.token>` via
`query_pairs_mut().append_pair`), and the timeout applied to
`connect_async_tls_with_config`. -/
structure ConnectRequest where
  url : String
  query_pairs_appended : List (String × String)
  timeout_secs : ℕ
  deriving DecidableEq, Repr

/-- The handshake attempt made for a configuration. -/
def connect_request (cfg : ReporterConfig) : ConnectRequest :=
  { url := rewrite_ws_url cfg.ws_url
  , query_pairs_appended := [("token", cfg.token)]
  , timeout_secs := HANDSHAKE_TIMEOUT_SECS }

/-! ### Configuration store (src/services/config.rs) -/

/-- `AppConfig` (config.rs:15). -/
structure AppConfig where
  reporter : ReporterConfig
  deriving DecidableEq, Repr

/-- `AppConfig::default()`: `#[derive(Default)]` on `AppConfig` combined
with `impl Default for ReporterConfig` (config.rs:20): reporting disabled,
empty endpoint, empty token. -/
def AppConfig.default : AppConfig :=
  { reporter := { enabled := false, ws_url := "", token := "" } }

/-- The state of the persisted configuration file as `load_config` observes
it: absent, present but unreadable, or readable with some contents. -/
inductive ConfigFile where
  | missing
  | unreadable (err : String)
  | readable (content : String)
  deriving DecidableEq, Repr

/-- `load_config` (config.rs:51): missing file, read error and parse error
all fall back to `AppConfig::default()`; only successfully parsed contents
are returned as-is. `parse_toml` models `toml::from_str`. The function is
total: it always returns a configuration. -/
def load_config (parse_toml : String → Option AppConfig) :
    ConfigFile → AppConfig
  | .missing => AppConfig.default
  | .unreadable _ => AppConfig.default
  | .readable content =>
      match parse_toml content with
      | some config => config
      | none => AppConfig.default

/-! ### Concrete fixtures used by witness instances -/

/-- A concrete window snapshot. -/
def window_ex : WindowInfo :=
  { title := "Editor"
  , icon_data := none
  , process_name := "editor.exe"
  , pid := 100
  , app_id := some "com.example.editor" }

/-- A constant window hasher. -/
def const_hash1 : WindowInfoData → ℕ := fun _ => 1

/-- A concrete media snapshot with artwork and content id `c1`. -/
def media_ex : MediaMetadata :=
  { bundle_identifier := some "com.apple.Music"
  , title := some "Song"
  , artist := some "Artist"
  , album := some "Album"
  , duration := 180
  , artwork_data := some "iVBORw0KGgo"
  , artwork_mime_type := some "image/png"
  , content_item_identifier := some "c1" }

/-- A concrete base64 decoder result. -/
def decode_ex : String → Option (List ℕ) := fun _ => some [137, 80, 78, 71]

/-- A reporter whose artwork cache already holds content id `c1`. -/
def cached_reporter : Reporter :=
  { last_window_hash := 0
  , last_media_hash := 0
  , artwork_urls := [("c1", "https://collector.example/art/c1.png")]
  , queue := [] }

/-- Playback at 10.2 seconds elapsed. -/
def pb_ex : PlaybackState :=
  { playing := true, playback_rate := 1, elapsed_time := mkRat 51 5 }

/-- Playback at 10.8 seconds elapsed (same whole-second bucket as `pb_ex`). -/
def pb_ex2 : PlaybackState :=
  { playing := true, playback_rate := 1, elapsed_time := mkRat 54 5 }

/-- Playback at 0.9 seconds elapsed. -/
def pb_sub_a : PlaybackState :=
  { playing := true, playback_rate := 1, elapsed_time := mkRat 9 10 }

/-- Playback at 1.1 seconds elapsed (0.2 s from `pb_sub_a`, different
whole-second bucket). -/
def pb_sub_b : PlaybackState :=
  { playing := true, playback_rate := 1, elapsed_time := mkRat 11 10 }

/-- A hasher that separates the whole-second buckets of `pb_sub_a` and
`pb_sub_b`. -/
def cex_hash : MediaHashInput → ℕ := fun i => if i.2.elapsed_s = 0 then 1 else 2

/-- A constant media hasher. -/
def hash7 : MediaHashInput → ℕ := fun _ => 7

/-- A hasher that separates inputs by presence of an artwork URL. -/
def url_hash : MediaHashInput → ℕ :=
  fun i => if i.1.artwork_url = none then 1 else 2

/-- A concrete `artwork_uploaded` acknowledgement for content id `c1`. -/
def ack_ex : ServerMessage :=
  { msg_type := "artwork_uploaded"
  , content_item_identifier := some "c1"
  , artwork_url := some "https://collector.example/art/c1.png" }

/-- A parser that always fails, modelling unparseable file contents. -/
def parse_fail : String → Option AppConfig := fun _ => none

/-- A concrete configuration with an `http` endpoint. -/
def cfg_ex : ReporterConfig :=
  { enabled := true
  , ws_url := "http://collector.example/ws"
  , token := "t1" }

/-- The scenario of claim C10: one `send_media_playback` call followed by
the connection loop handling an `artwork_uploaded` acknowledgement for
content id `cid` with URL `url`. -/
def after_ack (hash : MediaHashInput → ℕ) (r : Reporter)
    (metadata : MediaMetadata) (state : PlaybackState) (cid url : String) :
    Reporter :=
  handle_server_message (send_media_playback hash r metadata state)
    { msg_type := "artwork_uploaded"
    , content_item_identifier := some cid
    , artwork_url := some url }

/-! ## Helper lemmas -/

theorem send_window_info_queue (hash : WindowInfoData → ℕ) (r : Reporter)
    (info : WindowInfo) :
    (send_window_info hash r info).queue =
      if hash (window_info_data info) ≠ r.last_window_hash then
        r.queue ++ [ReporterMessage.windowInfo
          { msg_type := "window_info", data := window_info_data info }]
      else r.queue := by
  simp only [send_window_info]
  split <;> rfl

theorem send_window_info_last (hash : WindowInfoData → ℕ) (r : Reporter)
    (info : WindowInfo) :
    (send_window_info hash r info).last_window_hash
      = hash (window_info_data info) := by
  simp only [send_window_info]
  split <;> rfl

theorem send_media_playback_queue (hash : MediaHashInput → ℕ) (r : Reporter)
    (metadata : MediaMetadata) (state : PlaybackState) :
    (send_media_playback hash r metadata state).queue =
      if hash (media_hash_input (media_metadata_data r.artwork_urls metadata)
          (playback_state_data state)) ≠ r.last_media_hash then
        r.queue ++ [ReporterMessage.mediaPlayback
          { msg_type := "media_playback"
          , metadata := media_metadata_data r.artwork_urls metadata
          , playback_state := playback_state_data state }]
      else r.queue := by
  simp only [send_media_playback]
  split <;> rfl

theorem send_media_playback_last (hash : MediaHashInput → ℕ) (r : Reporter)
    (metadata : MediaMetadata) (state : PlaybackState) :
    (send_media_playback hash r metadata state).last_media_hash
      = hash (media_hash_input (media_metadata_data r.artwork_urls metadata)
          (playback_state_data state)) := by
  simp only [send_media_playback]
  split <;> rfl

theorem send_media_playback_urls (hash : MediaHashInput → ℕ) (r : Reporter)
    (metadata : MediaMetadata) (state : PlaybackState) :
    (send_media_playback hash r metadata state).artwork_urls
      = r.artwork_urls := by
  simp only [send_media_playback]
  split <;> rfl

/-! ## Claim theorems -/

/-- C1: sending structurally equal window snapshots twice in a row enqueues
exactly one `window_info` message: the second call never enqueues, the first
call enqueues exactly when the computed fingerprint differs from the stored
last-window fingerprint, and both calls replace the stored fingerprint by
the newly computed one. -/
theorem send_window_info_idempotent (hash : WindowInfoData → ℕ)
    (r : Reporter) (info : WindowInfo) :
    (send_window_info hash (send_window_info hash r info) info).queue
      = (send_window_info hash r info).queue
    ∧ ((send_window_info hash r info).queue =
        if hash (window_info_data info) ≠ r.last_window_hash then
          r.queue ++ [ReporterMessage.windowInfo
            { msg_type := "window_info", data := window_info_data info }]
        else r.queue)
    ∧ (send_window_info hash r info).last_window_hash
        = hash (window_info_data info)
    ∧ (send_window_info hash (send_window_info hash r info) info).last_window_hash
        = hash (window_info_data info)
    ∧ (hash (window_info_data info) ≠ r.last_window_hash →
        (send_window_info hash (send_window_info hash r info) info).queue.length
          = r.queue.length + 1) := by
  have h2 : (send_window_info hash (send_window_info hash r info) info).queue
      = (send_window_info hash r info).queue := by
    rw [send_window_info_queue, send_window_info_last]
    simp
  refine ⟨h2, send_window_info_queue hash r info,
    send_window_info_last hash r info,
    send_window_info_last hash (send_window_info hash r info) info, ?_⟩
  intro hne
  rw [h2, send_window_info_queue, if_pos hne]
  simp

/-- Witness for C1: a fresh reporter and a concrete snapshot whose
fingerprint differs from the initial slot; two identical sends grow the
queue by exactly one message. -/
theorem send_window_info_idempotent_witness :
    (send_window_info const_hash1 (send_window_info const_hash1 Reporter.new
        window_ex) window_ex).queue.length
      = Reporter.new.queue.length + 1 :=
  (send_window_info_idempotent const_hash1 Reporter.new window_ex).2.2.2.2
    (by decide)

/-- C9: both fingerprint slots are initialized to 0 by `Reporter::new`, so
the very first snapshot of each kind is enqueued if and only if its computed
fingerprint is nonzero; a first snapshot hashing to 0 is suppressed. -/
theorem first_snapshot_suppressed_iff_zero_hash (hash_w : WindowInfoData → ℕ)
    (hash_m : MediaHashInput → ℕ) (info : WindowInfo)
    (metadata : MediaMetadata) (state : PlaybackState) :
    Reporter.new.last_window_hash = 0
    ∧ Reporter.new.last_media_hash = 0
    ∧ ((send_window_info hash_w Reporter.new info).queue ≠ []
        ↔ hash_w (window_info_data info) ≠ 0)
    ∧ ((send_media_playback hash_m Reporter.new metadata state).queue ≠ []
        ↔ hash_m (media_hash_input (media_metadata_data [] metadata)
            (playback_state_data state)) ≠ 0) := by
  refine ⟨rfl, rfl, ?_, ?_⟩
  · rw [send_window_info_queue]
    by_cases h : hash_w (window_info_data info) = 0 <;>
      simp [h, Reporter.new]
  · rw [send_media_playback_queue]
    by_cases h : hash_m (media_hash_input (media_metadata_data [] metadata)
        (playback_state_data state)) = 0 <;>
      simp_all [Reporter.new]

/-- C8: `load_config` returns the default configuration — reporting
disabled, empty endpoint, empty token — when the file is missing,
unreadable, or fails to parse; it is a total function and never fails. -/
theorem load_config_falls_back_to_default
    (parse_toml : String → Option AppConfig) (err content : String) :
    load_config parse_toml ConfigFile.missing = AppConfig.default
    ∧ load_config parse_toml (ConfigFile.unreadable err) = AppConfig.default
    ∧ (parse_toml content = none →
        load_config parse_toml (ConfigFile.readable content)
          = AppConfig.default)
    ∧ AppConfig.default.reporter.enabled = false
    ∧ AppConfig.default.reporter.ws_url = ""
    ∧ AppConfig.default.reporter.token = "" := by
  refine ⟨rfl, rfl, ?_, rfl, rfl, rfl⟩
  intro h
  simp [load_config, h]

/-- Witness for C8: a concrete unparseable file falls back to the default
configuration. -/
theorem load_config_falls_back_to_default_witness :
    load_config parse_fail (ConfigFile.readable "not toml") =
      AppConfig.default :=
  (load_config_falls_back_to_default parse_fail "io error" "not toml").2.2.1
    rfl

/-- C5: a dequeued `UploadArtwork` item produces the `upload_artwork_meta`
text frame carrying the content id and MIME type, immediately followed by
the binary artwork frame, with no frame of any other queued message between
the two. -/
theorem upload_artwork_two_adjacent_frames (cid : String) (bytes : List ℕ)
    (mime : String) (q1 q2 : List ReporterMessage) :
    frames_for_message (ReporterMessage.uploadArtwork cid bytes mime)
      = [Frame.textArtworkMeta
          { msg_type := "upload_artwork_meta"
          , content_item_identifier := cid
          , mime_type := mime }
        , Frame.binary bytes]
    ∧ drain_frames (q1 ++ ReporterMessage.uploadArtwork cid bytes mime :: q2)
      = drain_frames q1
        ++ Frame.textArtworkMeta
            { msg_type := "upload_artwork_meta"
            , content_item_identifier := cid
            , mime_type := mime }
          :: Frame.binary bytes :: drain_frames q2 := by
  constructor
  · rfl
  · simp [drain_frames, frames_for_message]

theorem conn_step_inv (s : ConnState) (e : ConnEvent)
    (h : s.is_connected = true ↔ s.phase = ConnPhase.connected) :
    ((conn_step s e).1.is_connected = true
      ↔ (conn_step s e).1.phase = ConnPhase.connected) := by
  cases e <;> cases hp : s.phase <;> simp [conn_step, hp] <;> simp_all

theorem conn_run_inv (es : List ConnEvent) (s : ConnState)
    (h : s.is_connected = true ↔ s.phase = ConnPhase.connected) :
    ((conn_run s es).1.is_connected = true
      ↔ (conn_run s es).1.phase = ConnPhase.connected) := by
  induction es generalizing s with
  | nil => simpa [conn_run] using h
  | cons e es ih =>
      rcases hst : conn_step s e with ⟨s', w⟩
      have h' := conn_step_inv s e h
      rw [hst] at h'
      simp only [conn_run, hst]
      exact ih s' h'

/-- C2: every failed connection attempt increments the reconnect counter;
below the ceiling of 5 the loop sleeps 3 s (3000 ms) before the next
attempt, at the ceiling it sleeps 30 s (30000 ms) and resets the counter to
zero; a successful handshake resets the counter to zero; after 5
consecutive handshake failures the loop has slept 3 s four times and then
the 30 s cooldown before the 6th attempt. -/
theorem backoff_policy :
    (∀ a : ℕ, a + 1 < MAX_RECONNECT_ATTEMPTS →
      backoff_step a = (a + 1, RECONNECT_INTERVAL))
    ∧ (∀ a : ℕ, MAX_RECONNECT_ATTEMPTS ≤ a + 1 →
      backoff_step a = (0, LONG_COOLDOWN))
    ∧ (∀ s : ConnState, s.phase = ConnPhase.connecting →
        (conn_step s ConnEvent.handshake_ok).1.reconnect_attempts = 0)
    ∧ conn_run conn_init (List.replicate 5 ConnEvent.handshake_failed)
        = ({ phase := ConnPhase.connecting, reconnect_attempts := 0,
             is_connected := false },
           [3000, 3000, 3000, 3000, 30000]) := by
  refine ⟨?_, ?_, ?_, by decide⟩
  · intro a h
    have hn : ¬ MAX_RECONNECT_ATTEMPTS ≤ a + 1 := by omega
    simp [backoff_step, hn]
  · intro a h
    simp [backoff_step, h]
  · intro s hp
    simp [conn_step, hp]

/-- Witness for C2: counter 2 sleeps the short interval and increments;
counter 4 reaches the ceiling, sleeps the cooldown and resets; a successful
handshake resets the counter. -/
theorem backoff_policy_witness :
    backoff_step 2 = (3, RECONNECT_INTERVAL)
    ∧ backoff_step 4 = (0, LONG_COOLDOWN)
    ∧ (conn_step conn_init ConnEvent.handshake_ok).1.reconnect_attempts
        = 0 :=
  ⟨backoff_policy.1 2 (by decide), backoff_policy.2.1 4 (by decide),
    backoff_policy.2.2.1 conn_init rfl⟩

/-- C7: the shared connected flag is true exactly while the loop is inside
its connected select loop: it is stored true exactly on a successful
handshake, stored false on every exit from the connected state (send error,
server close, read error), and along every event trace from the initial
state the flag reads true precisely in the connected phase. -/
theorem is_connected_iff_in_connected_loop :
    (∀ es : List ConnEvent,
      ((conn_run conn_init es).1.is_connected = true
        ↔ (conn_run conn_init es).1.phase = ConnPhase.connected))
    ∧ (∀ s : ConnState, s.phase = ConnPhase.connecting →
        (conn_step s ConnEvent.handshake_ok).1.is_connected = true)
    ∧ (∀ s : ConnState, ∀ e : ConnEvent, s.phase = ConnPhase.connected →
        (e = ConnEvent.send_error ∨ e = ConnEvent.server_close
          ∨ e = ConnEvent.read_error) →
        (conn_step s e).1.is_connected = false) := by
  refine ⟨?_, ?_, ?_⟩
  · intro es
    exact conn_run_inv es conn_init (by simp [conn_init])
  · intro s hp
    simp [conn_step, hp]
  · intro s e hp he
    rcases he with rfl | rfl | rfl <;> simp [conn_step, hp]

/-- Witness for C7: a successful handshake from the initial state sets the
flag; a server close from a connected state clears it. -/
theorem is_connected_iff_in_connected_loop_witness :
    (conn_step conn_init ConnEvent.handshake_ok).1.is_connected = true
    ∧ (conn_step
        { phase := ConnPhase.connected, reconnect_attempts := 0,
          is_connected := true }
        ConnEvent.server_close).1.is_connected = false :=
  ⟨is_connected_iff_in_connected_loop.2.1 conn_init rfl,
   is_connected_iff_in_connected_loop.2.2
     { phase := ConnPhase.connected, reconnect_attempts := 0,
       is_connected := true }
     ConnEvent.server_close rfl (Or.inr (Or.inl rfl))⟩

theorem handle_server_message_queue (r : Reporter) (m : ServerMessage) :
    (handle_server_message r m).queue = r.queue := by
  simp only [handle_server_message]
  split
  · split <;> rfl
  · rfl

theorem handle_server_message_last (r : Reporter) (m : ServerMessage) :
    (handle_server_message r m).last_media_hash = r.last_media_hash := by
  simp only [handle_server_message]
  split
  · split <;> rfl
  · rfl

theorem handle_server_message_ack (r : Reporter) (cid url : String) :
    handle_server_message r
      { msg_type := "artwork_uploaded"
      , content_item_identifier := some cid
      , artwork_url := some url }
      = { r with artwork_urls := insertUrl r.artwork_urls cid url } := rfl

theorem lookupUrl_insertUrl_self (urls : List (String × String))
    (id url : String) :
    lookupUrl (insertUrl urls id url) id = some url := by
  induction urls with
  | nil => simp [insertUrl, lookupUrl]
  | cons p rest ih =>
      by_cases h : p.1 == id
      · simp [insertUrl, lookupUrl, h]
      · simp [insertUrl, lookupUrl, h, ih]

theorem f64_as_i64_eq_floor (q : F64) (h0 : 0 ≤ q)
    (hmax : q ≤ ((i64_max : ℤ) : ℚ)) : f64_as_i64 q = ⌊q⌋ := by
  have hnum : 0 ≤ q.num := Rat.num_nonneg.mpr h0
  have hden : (0 : ℤ) ≤ (q.den : ℤ) := Int.ofNat_nonneg _
  have ht : Int.tdiv q.num (q.den : ℤ) = q.num / (q.den : ℤ) :=
    Int.tdiv_eq_ediv hnum hden
  have hfl : ⌊q⌋ = q.num / (q.den : ℤ) := Rat.floor_def
  have hfl0 : (0 : ℤ) ≤ ⌊q⌋ := Int.floor_nonneg.mpr h0
  have hmin : i64_min < 0 := by norm_num [i64_min]
  have hub : ⌊q⌋ ≤ i64_max := by
    have := Int.floor_le_floor hmax
    rwa [Int.floor_intCast] at this
  simp only [f64_as_i64, ht, ← hfl]
  rw [if_neg (by omega), if_neg (by omega)]

theorem f64_as_i64_lt (a b : F64) (ha : 0 ≤ a) (hb : 0 ≤ b)
    (hbmax : b ≤ ((i64_max : ℤ) : ℚ)) (hgap : a + 1 < b) :
    f64_as_i64 a < f64_as_i64 b := by
  have hamax : a ≤ ((i64_max : ℤ) : ℚ) := by linarith
  rw [f64_as_i64_eq_floor a ha hamax, f64_as_i64_eq_floor b hb hbmax]
  have h1 : (⌊a⌋ : ℚ) ≤ a := Int.floor_le a
  have h2 : ((⌊a⌋ + 1 : ℤ) : ℚ) ≤ b := by push_cast; linarith
  have h3 := Int.le_floor.mpr h2
  omega

/-- C3 (code bug): the monitoring loop in `start_window_monitoring`
consults the artwork cache and skips the upload when the content id is
present, but the polling tick in `main` enqueues the same upload
unconditionally, producing another metadata/binary frame pair for a content
id that is already in the cache. -/
theorem main_artwork_upload_ignores_cache :
    monitoring_artwork_step decode_ex cached_reporter media_ex
      = cached_reporter
    ∧ main_artwork_step decode_ex cached_reporter media_ex
      = { cached_reporter with
          queue := [ReporterMessage.uploadArtwork "c1" [137, 80, 78, 71]
            "image/png"] }
    ∧ drain_frames (main_artwork_step decode_ex cached_reporter
        media_ex).queue
      = [Frame.textArtworkMeta
          { msg_type := "upload_artwork_meta"
          , content_item_identifier := "c1"
          , mime_type := "image/png" }
        , Frame.binary [137, 80, 78, 71]] :=
  ⟨by decide, by decide, by decide⟩

/-- C4 (amended): the media fingerprint quantizes `elapsed_time` by
truncation to whole seconds. Two calls with identical metadata and playback
states whose elapsed times truncate to the same second give the same hash
input and enqueue no second message; elapsed times truncating to different
seconds give different hash inputs, and whenever the fingerprints differ a
second message is enqueued; nonnegative in-range elapsed times more than
one second apart always truncate to different seconds. -/
theorem media_quantization_buckets (hash : MediaHashInput → ℕ)
    (r : Reporter) (metadata : MediaMetadata) (s1 s2 : PlaybackState)
    (hplay : s1.playing = s2.playing)
    (hrate : s1.playback_rate = s2.playback_rate) :
    (f64_as_i64 s1.elapsed_time = f64_as_i64 s2.elapsed_time →
      (send_media_playback hash (send_media_playback hash r metadata s1)
        metadata s2).queue
        = (send_media_playback hash r metadata s1).queue)
    ∧ (f64_as_i64 s1.elapsed_time ≠ f64_as_i64 s2.elapsed_time →
        media_hash_input (media_metadata_data r.artwork_urls metadata)
          (playback_state_data s1)
        ≠ media_hash_input (media_metadata_data r.artwork_urls metadata)
          (playback_state_data s2))
    ∧ (hash (media_hash_input (media_metadata_data r.artwork_urls metadata)
          (playback_state_data s2))
        ≠ hash (media_hash_input (media_metadata_data r.artwork_urls
          metadata) (playback_state_data s1)) →
        (send_media_playback hash (send_media_playback hash r metadata s1)
          metadata s2).queue
          = (send_media_playback hash r metadata s1).queue
            ++ [ReporterMessage.mediaPlayback
                { msg_type := "media_playback"
                , metadata := media_metadata_data r.artwork_urls metadata
                , playback_state := playback_state_data s2 }])
    ∧ (0 ≤ s1.elapsed_time → 0 ≤ s2.elapsed_time →
        s1.elapsed_time ≤ ((i64_max : ℤ) : ℚ) →
        s2.elapsed_time ≤ ((i64_max : ℤ) : ℚ) →
        1 < |s2.elapsed_time - s1.elapsed_time| →
        f64_as_i64 s1.elapsed_time ≠ f64_as_i64 s2.elapsed_time) := by
  have hurls := send_media_playback_urls hash r metadata s1
  have hlast := send_media_playback_last hash r metadata s1
  refine ⟨?_, ?_, ?_, ?_⟩
  · intro h
    have hinput : media_hash_input (media_metadata_data r.artwork_urls
        metadata) (playback_state_data s2)
        = media_hash_input (media_metadata_data r.artwork_urls metadata)
          (playback_state_data s1) := by
      simp [media_hash_input, media_metadata_hash_input,
        playback_state_hash_input, playback_state_data, hplay, hrate, h]
    rw [send_media_playback_queue, hurls, hinput, hlast]
    simp
  · intro htr heq
    apply htr
    have := congrArg (fun i => i.2.elapsed_s) heq
    simpa [media_hash_input, playback_state_hash_input,
      playback_state_data] using this
  · intro hne
    rw [send_media_playback_queue, hurls, hlast, if_pos hne]
  · intro h1 h2 hm1 hm2 habs
    rcases le_or_lt s1.elapsed_time s2.elapsed_time with hle | hlt
    · have : s1.elapsed_time + 1 < s2.elapsed_time := by
        rw [abs_of_nonneg (by linarith)] at habs
        linarith
      exact ne_of_lt (f64_as_i64_lt _ _ h1 h2 hm2 this)
    · have : s2.elapsed_time + 1 < s1.elapsed_time := by
        rw [abs_of_neg (by linarith)] at habs
        linarith
      exact (ne_of_lt (f64_as_i64_lt _ _ h2 h1 hm1 this)).symm

/-- Witness for C4 (amended): elapsed times 10.2 s and 10.8 s truncate to
the same whole second, so the second call enqueues nothing. -/
theorem media_quantization_buckets_witness :
    (send_media_playback hash7 (send_media_playback hash7 Reporter.new
        media_ex pb_ex) media_ex pb_ex2).queue
      = (send_media_playback hash7 Reporter.new media_ex pb_ex).queue :=
  (media_quantization_buckets hash7 Reporter.new media_ex pb_ex pb_ex2 rfl
    rfl).1 (by decide)

/-- Counterexample to C4 as stated: playback states 0.9 s and 1.1 s elapsed
differ by 0.2 s — less than the one-second quantization resolution the code
applies to `elapsed_time` — yet they straddle a whole-second boundary, so
the second call computes a different fingerprint and a second
`media_playback` message is enqueued (queue length 2 after two calls). -/
theorem media_quantization_counterexample :
    |pb_sub_b.elapsed_time - pb_sub_a.elapsed_time| < 1
    ∧ pb_sub_a.playing = pb_sub_b.playing
    ∧ pb_sub_a.playback_rate = pb_sub_b.playback_rate
    ∧ (send_media_playback cex_hash (send_media_playback cex_hash
        Reporter.new media_ex pb_sub_a) media_ex pb_sub_b).queue.length
        = 2 :=
  ⟨by norm_num [pb_sub_a, pb_sub_b, Rat.mkRat_eq_div, abs_lt],
   rfl, rfl, by decide⟩

/-- C10: the media fingerprint includes the artwork URL looked up from the
cache, so handling an `artwork_uploaded` acknowledgement between two
otherwise-identical calls changes the hash input from one with no artwork
URL to one carrying the cached URL, and whenever the two fingerprints
differ the second call enqueues a `media_playback` message carrying the
cached URL. -/
theorem media_playback_artwork_cache_sensitivity (hash : MediaHashInput → ℕ)
    (r : Reporter) (metadata : MediaMetadata) (state : PlaybackState)
    (cid url : String)
    (hcid : metadata.content_item_identifier = some cid)
    (hmiss : lookupUrl r.artwork_urls cid = none) :
    (media_metadata_data (after_ack hash r metadata state cid
        url).artwork_urls metadata).artwork_url = some url
    ∧ (media_metadata_data r.artwork_urls metadata).artwork_url = none
    ∧ media_hash_input (media_metadata_data r.artwork_urls metadata)
        (playback_state_data state)
      ≠ media_hash_input (media_metadata_data (after_ack hash r metadata
          state cid url).artwork_urls metadata) (playback_state_data state)
    ∧ (hash (media_hash_input (media_metadata_data (after_ack hash r
          metadata state cid url).artwork_urls metadata)
          (playback_state_data state))
        ≠ hash (media_hash_input (media_metadata_data r.artwork_urls
          metadata) (playback_state_data state)) →
        (send_media_playback hash (after_ack hash r metadata state cid url)
          metadata state).queue
          = (send_media_playback hash r metadata state).queue
            ++ [ReporterMessage.mediaPlayback
                { msg_type := "media_playback"
                , metadata := media_metadata_data (after_ack hash r metadata
                    state cid url).artwork_urls metadata
                , playback_state := playback_state_data state }]) := by
  have hA : (media_metadata_data (after_ack hash r metadata state cid
      url).artwork_urls metadata).artwork_url = some url := by
    simp [after_ack, handle_server_message_ack, send_media_playback_urls,
      media_metadata_data, hcid, lookupUrl_insertUrl_self]
  have hB : (media_metadata_data r.artwork_urls metadata).artwork_url
      = none := by
    simp [media_metadata_data, hcid, hmiss]
  refine ⟨hA, hB, ?_, ?_⟩
  · intro heq
    have hcomp := congrArg (fun i => i.1.artwork_url) heq
    simp only [media_hash_input, media_metadata_hash_input] at hcomp
    rw [hA, hB] at hcomp
    exact Option.noConfusion hcomp
  · intro hne
    have hq : (after_ack hash r metadata state cid url).queue
        = (send_media_playback hash r metadata state).queue := by
      simp [after_ack, handle_server_message_queue]
    have hl : (after_ack hash r metadata state cid url).last_media_hash
        = hash (media_hash_input (media_metadata_data r.artwork_urls
            metadata) (playback_state_data state)) := by
      simp [after_ack, handle_server_message_last, send_media_playback_last]
    rw [send_media_playback_queue, hq, hl, if_pos hne]

/-- Witness for C10: with a fresh reporter, content id `c1` and a concrete
acknowledged URL, the call after the acknowledgement enqueues a
`media_playback` message carrying the cached URL. -/
theorem media_playback_artwork_cache_sensitivity_witness :
    (send_media_playback url_hash (after_ack url_hash Reporter.new media_ex
        pb_ex "c1" "https://collector.example/art/c1.png") media_ex
        pb_ex).queue
      = (send_media_playback url_hash Reporter.new media_ex pb_ex).queue
        ++ [ReporterMessage.mediaPlayback
            { msg_type := "media_playback"
            , metadata := media_metadata_data (after_ack url_hash
                Reporter.new media_ex pb_ex "c1"
                "https://collector.example/art/c1.png").artwork_urls
                media_ex
            , playback_state := playback_state_data pb_ex }] :=
  (media_playback_artwork_cache_sensitivity url_hash Reporter.new media_ex
    pb_ex "c1" "https://collector.example/art/c1.png" rfl rfl).2.2.2
    (by decide)

theorem isPrefixOf_append_self (p t : List Char) :
    p.isPrefixOf (p ++ t) = true := by
  induction p with
  | nil => cases t <;> rfl
  | cons c cs ih => simp [List.isPrefixOf, ih]

theorem replaceAllAux_of_not_contains (pat rep : List Char) (fuel : ℕ)
    (s : List Char) (h : containsSeq pat s = false) :
    replaceAllAux pat rep fuel s = s := by
  induction s generalizing fuel with
  | nil => cases fuel <;> rfl
  | cons c rest ih =>
      cases fuel with
      | zero => rfl
      | succ f =>
          simp only [containsSeq, Bool.or_eq_false_iff] at h
          simp only [replaceAllAux]
          rw [if_neg (by simp [h.1]), ih f h.2]

theorem replaceAllAux_scheme (pat rep rest : List Char) (hne : pat ≠ [])
    (hrest : containsSeq pat rest = false) :
    replaceAllAux pat rep (pat ++ rest).length (pat ++ rest)
      = rep ++ rest := by
  obtain ⟨c, cs, rfl⟩ : ∃ c cs, pat = c :: cs := by
    cases pat with
    | nil => exact absurd rfl hne
    | cons c cs => exact ⟨c, cs, rfl⟩
  have hlen : ((c :: cs) ++ rest).length = (cs ++ rest).length + 1 := by
    simp
  rw [hlen]
  show replaceAllAux (c :: cs) rep ((cs ++ rest).length + 1)
      (c :: (cs ++ rest)) = rep ++ rest
  simp only [replaceAllAux]
  have hpre : (c :: cs).isPrefixOf (c :: (cs ++ rest)) = true :=
    isPrefixOf_append_self (c :: cs) rest
  rw [if_pos ⟨List.cons_ne_nil c cs, hpre⟩]
  have hdrop : (c :: cs).length - 1 = cs.length := by simp
  rw [hdrop, List.drop_left,
    replaceAllAux_of_not_contains (c :: cs) rep (cs ++ rest).length rest
      hrest]

theorem str_replace_of_not_contains (s pat rep : String)
    (h : containsSeq pat.data s.data = false) : str_replace s pat rep = s :=
  congrArg String.mk
    (replaceAllAux_of_not_contains pat.data rep.data s.data.length s.data h)

theorem str_replace_scheme (scheme rep rest : String)
    (hne : scheme.data ≠ [])
    (hrest : containsSeq scheme.data rest.data = false) :
    str_replace (scheme ++ rest) scheme rep = rep ++ rest := by
  have hdata : replaceAllAux scheme.data rep.data
      (scheme ++ rest).data.length (scheme ++ rest).data
      = (rep ++ rest).data := by
    rw [String.data_append scheme rest, String.data_append rep rest]
    exact replaceAllAux_scheme scheme.data rep.data rest.data hne hrest
  exact congrArg String.mk hdata

/-- C6: before each handshake attempt the configured endpoint has its
`http` scheme rewritten to `ws` and its `https` scheme rewritten to `wss`,
the bearer token is appended to the URL as a query parameter named `token`,
and the handshake against the rewritten URL uses a 15-second timeout. -/
theorem connect_request_rewrites_and_token (cfg : ReporterConfig)
    (rest : String) :
    (cfg.ws_url = "http://" ++ rest →
      containsSeq "http://".data rest.data = false →
      containsSeq "https://".data ("ws://" ++ rest).data = false →
      (connect_request cfg).url = "ws://" ++ rest)
    ∧ (cfg.ws_url = "https://" ++ rest →
      containsSeq "http://".data ("https://" ++ rest).data = false →
      containsSeq "https://".data rest.data = false →
      (connect_request cfg).url = "wss://" ++ rest)
    ∧ (connect_request cfg).query_pairs_appended = [("token", cfg.token)]
    ∧ (connect_request cfg).timeout_secs = 15 := by
  refine ⟨?_, ?_, rfl, rfl⟩
  · intro hurl h1 h2
    show rewrite_ws_url cfg.ws_url = "ws://" ++ rest
    rw [hurl]
    unfold rewrite_ws_url
    rw [str_replace_scheme "http://" "ws://" rest (by decide) h1]
    exact str_replace_of_not_contains ("ws://" ++ rest) "https://" "wss://" h2
  · intro hurl h1 h2
    show rewrite_ws_url cfg.ws_url = "wss://" ++ rest
    rw [hurl]
    unfold rewrite_ws_url
    rw [str_replace_of_not_contains ("https://" ++ rest) "http://" "ws://" h1]
    exact str_replace_scheme "https://" "wss://" rest (by decide) h2

/-- Witness for C6: the endpoint `http://collector.example/ws` is attempted
as `ws://collector.example/ws`. -/
theorem connect_request_rewrites_and_token_witness :
    (connect_request cfg_ex).url = "ws://" ++ "collector.example/ws" :=
  (connect_request_rewrites_and_token cfg_ex "collector.example/ws").1
    (by decide) (by decide) (by decide)

end ShikenMatrix
